import Mathlib

/-!
# AXI timer PWM driver (`axi-timer-pwm.c`)

A shallow embedding of the kernel module `recipes-kernel/axi-timer-pwm/files/axi-timer-pwm.c`.

* The module's globals (`pwm`, `step`, `timer_irq`, `pdev`) are fields of `World`.
* The register window is a device of state type `σ` with a read function, a write function and
  a function for the passing of time (`Hw σ`); registers are addressed by their offset in the
  window mapped at `timer_virt_addr`.
* The kernel services the module calls (`probe_irq_on`, `probe_irq_off`, `request_irq`,
  `platform_device_register_simple`) are oracles in `Env`.
* Every externally visible call is appended to `World.trace` in program order.
* `uint32_t` values are naturals reduced modulo `2^32`, `int8_t` values are integers wrapped
  into `[-128, 127]`, `uint8_t` values are naturals reduced modulo `2^8`.
-/

namespace AxiTimerPwm

/-! ## Constants of the source -/

def AXI_TIMER_BASE_ADDR : Nat := 0x40000000
def AXI_TIMER_HIGH_ADDR : Nat := AXI_TIMER_BASE_ADDR + 0xFFFF

def AXI_TIMER_TCSR0_OFFSET : Nat := 0x00
def AXI_TIMER_TLR0_OFFSET : Nat := 0x04
def AXI_TIMER_TCR0_OFFSET : Nat := 0x08
def AXI_TIMER_TCSR1_OFFSET : Nat := 0x10
def AXI_TIMER_TLR1_OFFSET : Nat := 0x14
def AXI_TIMER_TCR1_OFFSET : Nat := 0x18

def AXI_TIMER_CSR_CASC : Nat := 1 <<< 11
def AXI_TIMER_CSR_ENALL : Nat := 1 <<< 10
def AXI_TIMER_CSR_PWMA : Nat := 1 <<< 9
def AXI_TIMER_CSR_TINT : Nat := 1 <<< 8
def AXI_TIMER_CSR_ENT : Nat := 1 <<< 7
def AXI_TIMER_CSR_ENIT : Nat := 1 <<< 6
def AXI_TIMER_CSR_LOAD : Nat := 1 <<< 5
def AXI_TIMER_CSR_ARHT : Nat := 1 <<< 4
def AXI_TIMER_CSR_CAPT : Nat := 1 <<< 3
def AXI_TIMER_CSR_GENT : Nat := 1 <<< 2
def AXI_TIMER_CSR_UDT : Nat := 1 <<< 1
def AXI_TIMER_CSR_MDT : Nat := 1 <<< 0

def PWM_CONFIG : Nat := AXI_TIMER_CSR_PWMA ||| AXI_TIMER_CSR_GENT ||| AXI_TIMER_CSR_UDT
def TMR0_RELOAD : Nat := 20000
def TMR1_RELOAD : Nat := 10000

/-- Kernel errno `EIO` (`include/uapi/asm-generic/errno-base.h`). -/
def EIO : Int := 5
/-- Kernel errno `ENODEV` (`include/uapi/asm-generic/errno-base.h`). -/
def ENODEV : Int := 19

/-- Return type of an interrupt handler (`include/linux/irqreturn.h`). -/
inductive irqreturn_t where
  | IRQ_NONE
  | IRQ_HANDLED
  | IRQ_WAKE_THREAD
  deriving DecidableEq, Repr

/-! ## Machine arithmetic -/

/-- Conversion of a C `int` to `uint32_t`. -/
def toU32 (x : Int) : Nat := (x % 2 ^ 32).toNat

/-- Conversion of a C `int` to `int8_t` (two's complement wrap). -/
def toI8 (x : Int) : Int := (x + 128) % 256 - 128

/-- Bitwise complement of a constant of type `int`, as seen by a `uint32_t` operand of `&`. -/
def not32 (x : Nat) : Nat := 2 ^ 32 - 1 - x % 2 ^ 32

/-! ## The duty update of the handler (lines 54-59) -/

/-- The statement `pwm += step;` on `uint32_t pwm`, `int8_t step`. -/
def pwm_add (pwm : Nat) (step : Int) : Nat := (pwm + toU32 step) % 2 ^ 32

/-- The statements `pwm += step; if(pwm >= TMR0_RELOAD || pwm == 0) step = -step;`. -/
def duty_update (pwm : Nat) (step : Int) : Nat × Int :=
  let pwm := pwm_add pwm step
  if pwm ≥ TMR0_RELOAD ∨ pwm = 0 then (pwm, toI8 (-step)) else (pwm, step)

/-- The same update in exact integer arithmetic (no wrap-around anywhere). -/
def duty_update_exact (pwm : Int) (step : Int) : Int × Int :=
  let pwm := pwm + step
  if pwm ≥ 20000 ∨ pwm = 0 then (pwm, -step) else (pwm, step)

/-! ## Events, environment, world -/

/-- The calls the module makes to the kernel and the device, with the values exchanged. -/
inductive Event where
  | printk (fmt : String) (args : List Int)
  | ioremap_nocache (base size : Nat)
  | iowrite32 (value offset : Nat)
  | ioread32 (offset value : Nat)
  | probe_irq_on (mask : Nat)
  | mdelay (ms : Nat)
  | probe_irq_off (mask : Nat) (result : Int)
  | request_irq (irq : Int) (name : String) (result : Int)
  | platform_device_register_simple (name : String) (nonNull : Bool)
  | kfree
  | iounmap
  | free_irq (irq : Int)
  | platform_device_unregister
  deriving DecidableEq, Repr

/-- The register window as a device: what a 32-bit read returns and how reads, writes and the
passing of time change the device. -/
structure Hw (σ : Type) where
  read : σ → Nat → Nat × σ
  write : σ → Nat → Nat → σ
  delay : σ → Nat → σ

/-- The kernel services used by `axitimer_init`; probing is indexed by the attempt number. -/
structure Env where
  probe_irq_on : Nat → Nat
  probe_irq_off : Nat → Int
  request_irq : Int → Int
  platform_device_register_simple : Bool

/-- The module's globals, the device, and the trace of calls made so far. -/
structure World (σ : Type) where
  dev : σ
  pwm : Nat
  step : Int
  timer_irq : Int
  pdev : Bool
  probes : Nat
  trace : List Event

/-- The state the module is loaded in: `pwm = 0`, `step = 4`, zero-initialised globals. -/
def World.initial {σ : Type} (dev : σ) : World σ :=
  { dev := dev, pwm := 0, step := 4, timer_irq := 0, pdev := false, probes := 0, trace := [] }

variable {σ : Type}

def emit (w : World σ) (e : Event) : World σ := { w with trace := w.trace ++ [e] }

def iowrite32 (hw : Hw σ) (value offset : Nat) (w : World σ) : World σ :=
  emit { w with dev := hw.write w.dev offset value } (.iowrite32 value offset)

def ioread32 (hw : Hw σ) (offset : Nat) (w : World σ) : Nat × World σ :=
  let r := hw.read w.dev offset
  let v := r.1 % 2 ^ 32
  (v, emit { w with dev := r.2 } (.ioread32 offset v))

def mdelay (hw : Hw σ) (ms : Nat) (w : World σ) : World σ :=
  emit { w with dev := hw.delay w.dev ms } (.mdelay ms)

/-! ## `axitimer_isr` (lines 50-69) -/

def axitimer_isr (hw : Hw σ) (w : World σ) : irqreturn_t × World σ :=
  -- pwm += step; if(pwm >= TMR0_RELOAD || pwm == 0) step = -step;
  let d := duty_update w.pwm w.step
  let w := { w with pwm := d.1, step := d.2 }
  -- iowrite32(pwm, timer_virt_addr + AXI_TIMER_TLR1_OFFSET);
  let w := iowrite32 hw w.pwm AXI_TIMER_TLR1_OFFSET w
  -- reg0 = ioread32(timer_virt_addr + AXI_TIMER_TCSR0_OFFSET) | AXI_TIMER_CSR_TINT;
  let r := ioread32 hw AXI_TIMER_TCSR0_OFFSET w
  let reg0 := r.1 ||| AXI_TIMER_CSR_TINT
  -- iowrite32(reg0, timer_virt_addr + AXI_TIMER_TCSR0_OFFSET);
  let w := iowrite32 hw reg0 AXI_TIMER_TCSR0_OFFSET r.2
  (.IRQ_HANDLED, w)

/-- The world after `n` invocations of the handler. -/
def isr_iter (hw : Hw σ) : Nat → World σ → World σ
  | 0, w => w
  | n + 1, w => (axitimer_isr hw (isr_iter hw n w)).2

/-! ## `axitimer_init` (lines 71-142) -/

/-- One pass through the body of the `do ... while` loop (lines 92-109). -/
def probe_attempt (hw : Hw σ) (env : Env) (w : World σ) : World σ :=
  -- mask = probe_irq_on();
  let mask := env.probe_irq_on w.probes
  let w := emit w (.probe_irq_on mask)
  -- temp0 = ioread32(TCSR0) | AXI_TIMER_CSR_ENT; iowrite32(temp0, TCSR0);
  let r := ioread32 hw AXI_TIMER_TCSR0_OFFSET w
  let temp0 := r.1 ||| AXI_TIMER_CSR_ENT
  let w := iowrite32 hw temp0 AXI_TIMER_TCSR0_OFFSET r.2
  -- mdelay(1);
  let w := mdelay hw 1 w
  -- temp0 = ioread32(TCSR0) & ~(AXI_TIMER_CSR_ENT); iowrite32(temp0, TCSR0);
  let r := ioread32 hw AXI_TIMER_TCSR0_OFFSET w
  let temp0 := r.1 &&& not32 AXI_TIMER_CSR_ENT
  let w := iowrite32 hw temp0 AXI_TIMER_TCSR0_OFFSET r.2
  -- timer_irq = probe_irq_off(mask);
  let irq := env.probe_irq_off w.probes
  let w := emit { w with timer_irq := irq, probes := w.probes + 1 } (.probe_irq_off mask irq)
  -- if(timer_irq == 0) printk(...)
  if w.timer_irq = 0 then
    emit w (.printk "\x016axitimer_init: No IRQ reported by probe.\n" [])
  else w

/-- The loop `do body while(timer_irq < 0 && count++ < 5);` with `uint8_t count`, entered
with the given value of `count`. `none` when the fuel is used up. -/
def probe_loop (hw : Hw σ) (env : Env) : Nat → Nat → World σ → Option (Nat × World σ)
  | 0, _, _ => none
  | fuel + 1, count, w =>
    let w := probe_attempt hw env w
    if w.timer_irq < 0 then
      -- `count++ < 5` compares the old value and increments in either case
      if count < 5 then probe_loop hw env fuel ((count + 1) % 2 ^ 8) w
      else some ((count + 1) % 2 ^ 8, w)
    else some (count, w)

def axitimer_init (hw : Hw σ) (env : Env) (fuel : Nat) (w : World σ) : Option (Int × World σ) :=
  let w := emit w (.printk "\x016Initializing AXI Timer module...\n" [])
  -- timer_virt_addr = ioremap_nocache(BASE, HIGH - BASE + 1);
  let w := emit w (.ioremap_nocache AXI_TIMER_BASE_ADDR
    (AXI_TIMER_HIGH_ADDR - AXI_TIMER_BASE_ADDR + 1))
  -- Configure timers for PWM usage
  let w := iowrite32 hw (PWM_CONFIG ||| AXI_TIMER_CSR_ENIT) AXI_TIMER_TCSR0_OFFSET w
  let w := iowrite32 hw PWM_CONFIG AXI_TIMER_TCSR1_OFFSET w
  -- Set starting values
  let w := iowrite32 hw TMR0_RELOAD AXI_TIMER_TLR0_OFFSET w
  let w := iowrite32 hw TMR1_RELOAD AXI_TIMER_TLR1_OFFSET w
  -- Set up and try to probe for interrupts (count = 0)
  match probe_loop hw env fuel 0 w with
  | none => none
  | some (_, w) =>
    if w.timer_irq = 0 then
      some (- EIO, emit w (.printk "\x013axitimer_init: IRQ probe failed.\n" []))
    else
      -- if(request_irq(timer_irq, axitimer_isr, 0, DEVICE_NAME, NULL))
      let res := env.request_irq w.timer_irq
      let w := emit w (.request_irq w.timer_irq "axitimer" res)
      if res ≠ 0 then
        some (- EIO, emit w (.printk "\x013axitimer_init: Cannot register IRQ %d\n" [w.timer_irq]))
      else
        -- pdev = platform_device_register_simple(DEVICE_NAME, 0, NULL, 0);
        let p := env.platform_device_register_simple
        let w := emit { w with pdev := p } (.platform_device_register_simple "axitimer" p)
        if w.pdev = false then
          let w := emit w (.printk "\x014axitimer_init: Adding platform device failed.\n" [])
          let w := emit w .kfree
          some (- ENODEV, w)
        else
          -- temp0 = ioread32(TCSR0) | AXI_TIMER_CSR_ENALL; iowrite32(temp0, TCSR0);
          let r := ioread32 hw AXI_TIMER_TCSR0_OFFSET w
          let temp0 := r.1 ||| AXI_TIMER_CSR_ENALL
          let w := iowrite32 hw temp0 AXI_TIMER_TCSR0_OFFSET r.2
          some (0, emit w (.printk "\x016AXI Timer configured.\n" []))

/-! ## `axitimer_exit` (lines 144-151) -/

def axitimer_exit (w : World σ) : World σ :=
  let w := emit w .iounmap
  let w := emit w (.free_irq w.timer_irq)
  let w := emit w .platform_device_unregister
  emit w (.printk "\x016AXI Timer module removed.\n" [])

/-! ## Devices and environments used for evaluation -/

/-- Registers as plain storage: a read returns the last value written to the offset. -/
def plainHw : Hw (Nat → Nat) where
  read := fun s off => (s off, s)
  write := fun s off v => fun o => if o = off then v else s o
  delay := fun s _ => s

/-- The invariant of the duty state: either rising (`step = 4`, below the top) or falling
(`step = -4`, above the bottom), always on a multiple of 4. -/
def DutyInv (p : Nat) (s : Int) : Prop :=
  (s = 4 ∧ p % 4 = 0 ∧ p < 20000) ∨ (s = -4 ∧ p % 4 = 0 ∧ 4 ≤ p ∧ p ≤ 20000)

/-- The five steps of one probe attempt: arm the detection, enable channel 0, wait, disable
channel 0, disarm and report. -/
inductive ProbeStep where
  | arm
  | enable
  | delay
  | disable
  | report
  deriving DecidableEq, Repr

/-- The probe step an event stands for: a write to channel 0's control/status register is an
enable when it sets the enable-timer bit (bit 7) and a disable when it clears it. -/
def Event.probeStep : Event → Option ProbeStep
  | .probe_irq_on _ => some .arm
  | .iowrite32 v off =>
    if off = AXI_TIMER_TCSR0_OFFSET then
      (if v.testBit 7 then some .enable else some .disable)
    else none
  | .mdelay _ => some .delay
  | .probe_irq_off _ _ => some .report
  | _ => none

/-- The step sequence of `k` complete probe attempts. -/
def protocol : Nat → List ProbeStep
  | 0 => []
  | k + 1 => protocol k ++ [.arm, .enable, .delay, .disable, .report]

/-- A register access: a 32-bit read or write of the window. -/
def Event.isRegAccess : Event → Bool
  | .iowrite32 _ _ => true
  | .ioread32 _ _ => true
  | _ => false

/-- The offset and value of a register write. -/
def Event.regWrite : Event → Option (Nat × Nat)
  | .iowrite32 v off => some (off, v)
  | _ => none

/-- A write that sets the enable-all bit: a write to a control/status register (the only
registers that have such a bit) whose value has bit 10 set. -/
def Event.isEnallWrite : Event → Bool
  | .iowrite32 v off =>
    (off = AXI_TIMER_TCSR0_OFFSET ∨ off = AXI_TIMER_TCSR1_OFFSET) ∧ v.testBit 10
  | _ => false

/-- The events the probe loop can produce. -/
def Event.isProbeEvent : Event → Bool
  | .printk _ _ => true
  | .iowrite32 _ off => off = AXI_TIMER_TCSR0_OFFSET
  | .ioread32 off _ => off = AXI_TIMER_TCSR0_OFFSET
  | .probe_irq_on _ => true
  | .mdelay _ => true
  | .probe_irq_off _ _ => true
  | _ => false

/-- The world after `k` passes through the loop body. -/
def attempts (hw : Hw σ) (env : Env) : Nat → World σ → World σ
  | 0, w => w
  | k + 1, w => probe_attempt hw env (attempts hw env k w)

/-- An environment given by its probe results, the answer of `request_irq` and whether the
platform device is registered; `probe_irq_on` returns the mask 0. -/
def envOf (probe : Nat → Int) (req : Int → Int) (plat : Bool) : Env :=
  { probe_irq_on := fun _ => 0, probe_irq_off := probe, request_irq := req,
    platform_device_register_simple := plat }

/-- The straight-line code of `axitimer_init` before the loop (lines 77-87). -/
def init_config (hw : Hw σ) (w : World σ) : World σ :=
  let w := emit w (.printk "\x016Initializing AXI Timer module...\n" [])
  let w := emit w (.ioremap_nocache AXI_TIMER_BASE_ADDR
    (AXI_TIMER_HIGH_ADDR - AXI_TIMER_BASE_ADDR + 1))
  let w := iowrite32 hw (PWM_CONFIG ||| AXI_TIMER_CSR_ENIT) AXI_TIMER_TCSR0_OFFSET w
  let w := iowrite32 hw PWM_CONFIG AXI_TIMER_TCSR1_OFFSET w
  let w := iowrite32 hw TMR0_RELOAD AXI_TIMER_TLR0_OFFSET w
  iowrite32 hw TMR1_RELOAD AXI_TIMER_TLR1_OFFSET w

/-- The events of `axitimer_init` after the loop (lines 113-140), as a function of the world
the loop leaves. -/
def init_tail_events (hw : Hw σ) (env : Env) (w : World σ) : List Event :=
  if w.timer_irq = 0 then
    [.printk "\x013axitimer_init: IRQ probe failed.\n" []]
  else if env.request_irq w.timer_irq ≠ 0 then
    [.request_irq w.timer_irq "axitimer" (env.request_irq w.timer_irq),
     .printk "\x013axitimer_init: Cannot register IRQ %d\n" [w.timer_irq]]
  else if env.platform_device_register_simple = false then
    [.request_irq w.timer_irq "axitimer" (env.request_irq w.timer_irq),
     .platform_device_register_simple "axitimer" false,
     .printk "\x014axitimer_init: Adding platform device failed.\n" [],
     .kfree]
  else
    [.request_irq w.timer_irq "axitimer" (env.request_irq w.timer_irq),
     .platform_device_register_simple "axitimer" true,
     .ioread32 AXI_TIMER_TCSR0_OFFSET ((hw.read w.dev AXI_TIMER_TCSR0_OFFSET).1 % 2 ^ 32),
     .iowrite32 ((hw.read w.dev AXI_TIMER_TCSR0_OFFSET).1 % 2 ^ 32 ||| AXI_TIMER_CSR_ENALL)
       AXI_TIMER_TCSR0_OFFSET,
     .printk "\x016AXI Timer configured.\n" []]

/-- The value `axitimer_init` returns, as a function of the world the loop leaves. -/
def init_tail_ret (env : Env) (w : World σ) : Int :=
  if w.timer_irq = 0 then - EIO
  else if env.request_irq w.timer_irq ≠ 0 then - EIO
  else if env.platform_device_register_simple = false then - ENODEV
  else 0

/-! ## The duty ramp -/

theorem toU32_four : toU32 4 = 4 := by decide

theorem toU32_neg_four : toU32 (-4) = 4294967292 := by decide

theorem toI8_four : toI8 4 = 4 := by decide

theorem toI8_neg_four : toI8 (-4) = -4 := by decide

theorem duty_update_up (p : Nat) (h : p + 4 < 20000) : duty_update p 4 = (p + 4, 4) := by
  have e : pwm_add p 4 = p + 4 := by
    simp only [pwm_add, toU32_four]; norm_num; omega
  simp only [duty_update, e, TMR0_RELOAD]
  rw [if_neg (by omega)]

theorem duty_update_top : duty_update 19996 4 = (20000, -4) := by decide

theorem duty_update_down (p : Nat) (h : 4 < p) (h2 : p ≤ 20000) :
    duty_update p (-4) = (p - 4, -4) := by
  have e : pwm_add p (-4) = p - 4 := by
    simp only [pwm_add, toU32_neg_four]; norm_num; omega
  simp only [duty_update, e, TMR0_RELOAD]
  rw [if_neg (by omega)]

theorem duty_update_bottom : duty_update 4 (-4) = (0, 4) := by decide

theorem isr_pwm (hw : Hw σ) (w : World σ) :
    (axitimer_isr hw w).2.pwm = (duty_update w.pwm w.step).1 := rfl

theorem isr_step (hw : Hw σ) (w : World σ) :
    (axitimer_isr hw w).2.step = (duty_update w.pwm w.step).2 := rfl

theorem duty_update_inv (p : Nat) (s : Int) (h : DutyInv p s) :
    DutyInv (duty_update p s).1 (duty_update p s).2 := by
  rcases h with ⟨hs, hm, hlt⟩ | ⟨hs, hm, hge, hle⟩
  · subst hs
    by_cases hq : p + 4 < 20000
    · rw [duty_update_up p hq]
      exact Or.inl ⟨rfl, by omega, hq⟩
    · have : p = 19996 := by omega
      subst this
      rw [duty_update_top]
      exact Or.inr ⟨rfl, by decide, by decide, by decide⟩
  · subst hs
    by_cases hq : 4 < p
    · rw [duty_update_down p hq hle]
      exact Or.inr ⟨rfl, by omega, by omega, by omega⟩
    · have : p = 4 := by omega
      subst this
      rw [duty_update_bottom]
      exact Or.inl ⟨rfl, by decide, by decide⟩

theorem isr_iter_inv (hw : Hw σ) (w : World σ) (h : DutyInv w.pwm w.step) (n : Nat) :
    DutyInv (isr_iter hw n w).pwm (isr_iter hw n w).step := by
  induction n with
  | zero => exact h
  | succ n ih =>
    show DutyInv (axitimer_isr hw (isr_iter hw n w)).2.pwm (axitimer_isr hw (isr_iter hw n w)).2.step
    rw [isr_pwm, isr_step]
    exact duty_update_inv _ _ ih

theorem dutyInv_initial (w : World σ) (hp : w.pwm = 0) (hs : w.step = 4) :
    DutyInv w.pwm w.step := by
  rw [hp, hs]; exact Or.inl ⟨rfl, by decide, by decide⟩

theorem isr_iter_up (hw : Hw σ) (w : World σ) (hp : w.pwm = 0) (hs : w.step = 4) (n : Nat)
    (hn : n < 5000) : (isr_iter hw n w).pwm = 4 * n ∧ (isr_iter hw n w).step = 4 := by
  induction n with
  | zero => exact ⟨hp, hs⟩
  | succ n ih =>
    obtain ⟨ip, is⟩ := ih (by omega)
    show (axitimer_isr hw (isr_iter hw n w)).2.pwm = 4 * (n + 1) ∧
      (axitimer_isr hw (isr_iter hw n w)).2.step = 4
    rw [isr_pwm, isr_step, ip, is, duty_update_up (4 * n) (by omega)]
    exact ⟨by omega, rfl⟩

theorem isr_iter_top (hw : Hw σ) (w : World σ) (hp : w.pwm = 0) (hs : w.step = 4) :
    (isr_iter hw 5000 w).pwm = 20000 ∧ (isr_iter hw 5000 w).step = -4 := by
  obtain ⟨ip, is⟩ := isr_iter_up hw w hp hs 4999 (by decide)
  show (axitimer_isr hw (isr_iter hw 4999 w)).2.pwm = 20000 ∧
    (axitimer_isr hw (isr_iter hw 4999 w)).2.step = -4
  rw [isr_pwm, isr_step, ip, is]
  exact ⟨by decide, by decide⟩

theorem isr_iter_down (hw : Hw σ) (w : World σ) (hp : w.pwm = 0) (hs : w.step = 4) (k : Nat)
    (hk : k < 5000) :
    (isr_iter hw (5000 + k) w).pwm = 20000 - 4 * k ∧ (isr_iter hw (5000 + k) w).step = -4 := by
  induction k with
  | zero => exact isr_iter_top hw w hp hs
  | succ k ih =>
    obtain ⟨ip, is⟩ := ih (by omega)
    show (axitimer_isr hw (isr_iter hw (5000 + k) w)).2.pwm = 20000 - 4 * (k + 1) ∧
      (axitimer_isr hw (isr_iter hw (5000 + k) w)).2.step = -4
    rw [isr_pwm, isr_step, ip, is, duty_update_down (20000 - 4 * k) (by omega) (by omega)]
    exact ⟨by omega, rfl⟩

theorem isr_iter_bottom (hw : Hw σ) (w : World σ) (hp : w.pwm = 0) (hs : w.step = 4) :
    (isr_iter hw 10000 w).pwm = 0 ∧ (isr_iter hw 10000 w).step = 4 := by
  obtain ⟨ip, is⟩ := isr_iter_down hw w hp hs 4999 (by decide)
  show (axitimer_isr hw (isr_iter hw (5000 + 4999) w)).2.pwm = 0 ∧
    (axitimer_isr hw (isr_iter hw (5000 + 4999) w)).2.step = 4
  rw [isr_pwm, isr_step, ip, is]
  exact ⟨by decide, by decide⟩

theorem isr_iter_succ (hw : Hw σ) (n : Nat) (w : World σ) :
    isr_iter hw (n + 1) w = (axitimer_isr hw (isr_iter hw n w)).2 := rfl

theorem isr_iter_add (hw : Hw σ) (w : World σ) (m n : Nat) :
    isr_iter hw (n + m) w = isr_iter hw n (isr_iter hw m w) := by
  induction n with
  | zero => simp [isr_iter]
  | succ n ih =>
    have e : n + 1 + m = (n + m) + 1 := by omega
    rw [e]
    simp only [isr_iter, ih]

theorem isr_iter_congr (hw : Hw σ) (w1 w2 : World σ) (hp : w1.pwm = w2.pwm)
    (hs : w1.step = w2.step) (n : Nat) :
    (isr_iter hw n w1).pwm = (isr_iter hw n w2).pwm ∧
      (isr_iter hw n w1).step = (isr_iter hw n w2).step := by
  induction n with
  | zero => exact ⟨hp, hs⟩
  | succ n ih =>
    show (axitimer_isr hw (isr_iter hw n w1)).2.pwm = (axitimer_isr hw (isr_iter hw n w2)).2.pwm ∧
      (axitimer_isr hw (isr_iter hw n w1)).2.step = (axitimer_isr hw (isr_iter hw n w2)).2.step
    rw [isr_pwm, isr_step, isr_pwm, isr_step, ih.1, ih.2]
    exact ⟨rfl, rfl⟩

theorem isr_iter_period (hw : Hw σ) (w : World σ) (hp : w.pwm = 0) (hs : w.step = 4) (n : Nat) :
    (isr_iter hw (n + 10000) w).pwm = (isr_iter hw n w).pwm ∧
      (isr_iter hw (n + 10000) w).step = (isr_iter hw n w).step := by
  rw [isr_iter_add]
  obtain ⟨bp, bs⟩ := isr_iter_bottom hw w hp hs
  exact isr_iter_congr hw _ w (by rw [bp, hp]) (by rw [bs, hs]) n

theorem pwm_add_lt (p : Nat) (s : Int) : pwm_add p s < 2 ^ 32 :=
  Nat.mod_lt _ (by decide)

theorem lor_lt_u32 (v m : Nat) (hv : v < 2 ^ 32) (hm : m < 2 ^ 32) : v ||| m < 2 ^ 32 :=
  Nat.or_lt_two_pow hv hm

theorem isr_trace (hw : Hw σ) (w : World σ) :
    (axitimer_isr hw w).2.trace = w.trace ++
      [Event.iowrite32 (duty_update w.pwm w.step).1 AXI_TIMER_TLR1_OFFSET,
       Event.ioread32 AXI_TIMER_TCSR0_OFFSET
        ((hw.read (hw.write w.dev AXI_TIMER_TLR1_OFFSET (duty_update w.pwm w.step).1)
          AXI_TIMER_TCSR0_OFFSET).1 % 2 ^ 32),
       Event.iowrite32
        ((hw.read (hw.write w.dev AXI_TIMER_TLR1_OFFSET (duty_update w.pwm w.step).1)
          AXI_TIMER_TCSR0_OFFSET).1 % 2 ^ 32 ||| AXI_TIMER_CSR_TINT) AXI_TIMER_TCSR0_OFFSET] := by
  simp [axitimer_isr, iowrite32, ioread32, emit]

theorem duty_update_exact_of_inv (p : Nat) (s : Int) (h : DutyInv p s) :
    (0 ≤ (p : Int) + s ∧ (p : Int) + s < 2 ^ 32) ∧ ((pwm_add p s : Nat) : Int) = (p : Int) + s ∧
      toI8 (-s) = -s ∧
      (((duty_update p s).1 : Int), (duty_update p s).2) = duty_update_exact (p : Int) s := by
  rcases h with ⟨hs, hm, hlt⟩ | ⟨hs, hm, hge, hle⟩
  · subst hs
    have e : pwm_add p 4 = p + 4 := by
      simp only [pwm_add, toU32_four]; norm_num; omega
    refine ⟨⟨by omega, by norm_num; omega⟩, by rw [e]; push_cast; rfl, by decide, ?_⟩
    by_cases hq : p + 4 < 20000
    · rw [duty_update_up p hq]
      simp only [duty_update_exact]
      rw [if_neg (by omega)]
      push_cast; rfl
    · have : p = 19996 := by omega
      subst this
      decide
  · subst hs
    have e : pwm_add p (-4) = p - 4 := by
      simp only [pwm_add, toU32_neg_four]; norm_num; omega
    refine ⟨⟨by omega, by norm_num; omega⟩, by rw [e]; omega, by decide, ?_⟩
    by_cases hq : 4 < p
    · rw [duty_update_down p hq hle]
      simp only [duty_update_exact]
      rw [if_neg (by omega)]
      have : ((p - 4 : Nat) : Int) = (p : Int) + -4 := by omega
      rw [this]
    · have : p = 4 := by omega
      subst this
      decide

/-! ## The probe loop and `axitimer_init` -/

theorem probe_attempt_probes (hw : Hw σ) (env : Env) (w : World σ) :
    (probe_attempt hw env w).probes = w.probes + 1 := by
  unfold probe_attempt
  simp only [emit, iowrite32, ioread32, mdelay]
  split <;> rfl

theorem probe_attempt_irq (hw : Hw σ) (env : Env) (w : World σ) :
    (probe_attempt hw env w).timer_irq = env.probe_irq_off w.probes := by
  unfold probe_attempt
  simp only [emit, iowrite32, ioread32, mdelay]
  split <;> rfl

theorem ent_testBit7 : AXI_TIMER_CSR_ENT.testBit 7 = true := by decide

theorem not_ent_testBit7 : (not32 AXI_TIMER_CSR_ENT).testBit 7 = false := by decide

theorem probe_attempt_trace (hw : Hw σ) (env : Env) (w : World σ) :
    ∃ t, (probe_attempt hw env w).trace = w.trace ++ t ∧
      t.filterMap Event.probeStep =
        [ProbeStep.arm, ProbeStep.enable, ProbeStep.delay, ProbeStep.disable, ProbeStep.report] ∧
      ∀ e ∈ t, e.isProbeEvent = true := by
  unfold probe_attempt
  simp only [emit, iowrite32, ioread32, mdelay]
  split
  · refine ⟨_, by simp only [List.append_assoc]; rfl, ?_, ?_⟩
    · simp [List.filterMap_cons, Event.probeStep, ent_testBit7, not_ent_testBit7]
    · simp [Event.isProbeEvent]
  · refine ⟨_, by simp only [List.append_assoc]; rfl, ?_, ?_⟩
    · simp [List.filterMap_cons, Event.probeStep, ent_testBit7, not_ent_testBit7]
    · simp [Event.isProbeEvent]

theorem probe_attempt_plain (env : Env) (w : World (Nat → Nat))
    (h : w.dev AXI_TIMER_TCSR0_OFFSET = 582) :
    (probe_attempt plainHw env w).dev AXI_TIMER_TCSR0_OFFSET = 582 ∧
    ∃ t, (probe_attempt plainHw env w).trace = w.trace ++ t ∧
      ∀ e ∈ t, e.isEnallWrite = false := by
  unfold probe_attempt
  simp only [emit, iowrite32, ioread32, mdelay, plainHw, h]
  split
  · refine ⟨by simp; decide, _, by simp only [List.append_assoc]; rfl, ?_⟩
    simp [Event.isEnallWrite]
    decide
  · refine ⟨by simp; decide, _, by simp only [List.append_assoc]; rfl, ?_⟩
    simp [Event.isEnallWrite]
    decide

theorem attempts_succ_left (hw : Hw σ) (env : Env) (k : Nat) (w : World σ) :
    attempts hw env (k + 1) w = attempts hw env k (probe_attempt hw env w) := by
  induction k with
  | zero => rfl
  | succ k ih =>
    show probe_attempt hw env (attempts hw env (k + 1) w) = _
    rw [ih]; rfl

theorem attempts_probes (hw : Hw σ) (env : Env) (k : Nat) (w : World σ) :
    (attempts hw env k w).probes = w.probes + k := by
  induction k with
  | zero => rfl
  | succ k ih =>
    show (probe_attempt hw env (attempts hw env k w)).probes = _
    rw [probe_attempt_probes, ih]; omega

theorem attempts_irq (hw : Hw σ) (env : Env) (k : Nat) (w : World σ) :
    (attempts hw env (k + 1) w).timer_irq = env.probe_irq_off (w.probes + k) := by
  show (probe_attempt hw env (attempts hw env k w)).timer_irq = _
  rw [probe_attempt_irq, attempts_probes]

theorem attempts_trace (hw : Hw σ) (env : Env) (k : Nat) (w : World σ) :
    ∃ t, (attempts hw env k w).trace = w.trace ++ t ∧
      t.filterMap Event.probeStep = protocol k ∧
      ∀ e ∈ t, e.isProbeEvent = true := by
  induction k with
  | zero => exact ⟨[], by simp [attempts], rfl, by simp⟩
  | succ k ih =>
    obtain ⟨t, ht, hp, he⟩ := ih
    obtain ⟨u, hu, up, ue⟩ := probe_attempt_trace hw env (attempts hw env k w)
    refine ⟨t ++ u, ?_, ?_, ?_⟩
    · show (probe_attempt hw env (attempts hw env k w)).trace = _
      rw [hu, ht, List.append_assoc]
    · rw [List.filterMap_append, hp, up]; rfl
    · intro e h
      rcases List.mem_append.1 h with h | h
      · exact he e h
      · exact ue e h

theorem attempts_plain (env : Env) (k : Nat) (w : World (Nat → Nat))
    (h : w.dev AXI_TIMER_TCSR0_OFFSET = 582) :
    (attempts plainHw env k w).dev AXI_TIMER_TCSR0_OFFSET = 582 ∧
    ∃ t, (attempts plainHw env k w).trace = w.trace ++ t ∧
      ∀ e ∈ t, e.isEnallWrite = false := by
  induction k with
  | zero => exact ⟨h, [], by simp [attempts], by simp⟩
  | succ k ih =>
    obtain ⟨hd, t, ht, he⟩ := ih
    obtain ⟨ud, u, hu, ue⟩ := probe_attempt_plain env (attempts plainHw env k w) hd
    refine ⟨ud, t ++ u, ?_, ?_⟩
    · show (probe_attempt plainHw env (attempts plainHw env k w)).trace = _
      rw [hu, ht, List.append_assoc]
    · intro e h
      rcases List.mem_append.1 h with h | h
      · exact he e h
      · exact ue e h

theorem probe_loop_spec (hw : Hw σ) (env : Env) (fuel : Nat) :
    ∀ (count : Nat) (w : World σ) (r : Nat × World σ),
      probe_loop hw env fuel count w = some r →
      ∃ m, r.2 = attempts hw env (m + 1) w ∧
        (∀ j, j < m → env.probe_irq_off (w.probes + j) < 0) ∧
        (0 ≤ env.probe_irq_off (w.probes + m) ∨ 5 ≤ count + m) ∧
        (count ≤ 5 → count + m ≤ 5) := by
  induction fuel with
  | zero => intro count w r h; simp [probe_loop] at h
  | succ fuel ih =>
    intro count w r h
    simp only [probe_loop] at h
    by_cases hneg : (probe_attempt hw env w).timer_irq < 0
    · rw [if_pos hneg] at h
      by_cases hc : count < 5
      · rw [if_pos hc] at h
        have hc' : (count + 1) % 2 ^ 8 = count + 1 := Nat.mod_eq_of_lt (by omega)
        rw [hc'] at h
        obtain ⟨m, hm, hj, hl, hb⟩ := ih (count + 1) _ r h
        rw [probe_attempt_probes] at hj hl
        refine ⟨m + 1, ?_, ?_, ?_, ?_⟩
        · rw [hm, attempts_succ_left hw env (m + 1) w]
        · intro j hjm
          cases j with
          | zero => rw [probe_attempt_irq] at hneg; exact hneg
          | succ j =>
            have := hj j (by omega)
            rw [show w.probes + (j + 1) = w.probes + 1 + j by omega]
            exact this
        · rw [show w.probes + (m + 1) = w.probes + 1 + m by omega]
          rcases hl with hl | hl
          · exact Or.inl hl
          · exact Or.inr (by omega)
        · intro _; have := hb (by omega); omega
      · rw [if_neg hc] at h
        injection h with h
        subst h
        exact ⟨0, rfl, by intro j hj; omega, Or.inr (by omega), by intro; omega⟩
    · rw [if_neg hneg] at h
      injection h with h
      subst h
      rw [probe_attempt_irq] at hneg
      exact ⟨0, rfl, by intro j hj; omega, Or.inl (Int.not_lt.1 hneg), by intro; omega⟩

theorem probe_loop_terminates (hw : Hw σ) (env : Env) (fuel : Nat) :
    ∀ (count : Nat) (w : World σ), 1 ≤ fuel → 6 ≤ fuel + count →
      ∃ r, probe_loop hw env fuel count w = some r := by
  induction fuel with
  | zero => intro count w h; omega
  | succ fuel ih =>
    intro count w _ h6
    simp only [probe_loop]
    by_cases hneg : (probe_attempt hw env w).timer_irq < 0
    · rw [if_pos hneg]
      by_cases hc : count < 5
      · rw [if_pos hc]
        have hc' : (count + 1) % 2 ^ 8 = count + 1 := Nat.mod_eq_of_lt (by omega)
        rw [hc']
        exact ih (count + 1) _ (by omega) (by omega)
      · rw [if_neg hc]; exact ⟨_, rfl⟩
    · rw [if_neg hneg]; exact ⟨_, rfl⟩

theorem axitimer_init_of_loop (hw : Hw σ) (env : Env) (fuel : Nat) (w : World σ)
    (r : Nat × World σ) (h : probe_loop hw env fuel 0 (init_config hw w) = some r) :
    ∃ w', axitimer_init hw env fuel w = some (init_tail_ret env r.2, w') ∧
      w'.trace = r.2.trace ++ init_tail_events hw env r.2 ∧
      w'.timer_irq = r.2.timer_irq ∧ w'.probes = r.2.probes := by
  unfold axitimer_init
  unfold init_config at h
  simp only [] at h ⊢
  rw [h]
  simp only [init_tail_ret, init_tail_events]
  split_ifs <;> simp_all [emit, ioread32, iowrite32]

theorem init_config_trace (hw : Hw σ) (w : World σ) :
    (init_config hw w).trace = w.trace ++
      [Event.printk "\x016Initializing AXI Timer module...\n" [],
       Event.ioremap_nocache 0x40000000 0x10000,
       Event.iowrite32 0x246 0x00, Event.iowrite32 0x206 0x10,
       Event.iowrite32 20000 0x04, Event.iowrite32 10000 0x14] := by
  simp [init_config, emit, iowrite32]
  decide

theorem init_config_plain (w : World (Nat → Nat)) :
    (init_config plainHw w).dev AXI_TIMER_TCSR0_OFFSET = 582 := by
  simp [init_config, emit, iowrite32, plainHw]
  decide

theorem init_run (hw : Hw σ) (env : Env) (fuel : Nat) (w : World σ) :
    ∃ m w', axitimer_init hw env (fuel + 6) w =
        some (init_tail_ret env (attempts hw env (m + 1) (init_config hw w)), w') ∧
      m ≤ 5 ∧
      (∀ j, j < m → env.probe_irq_off (w.probes + j) < 0) ∧
      (0 ≤ env.probe_irq_off (w.probes + m) ∨ m = 5) ∧
      w'.trace = (attempts hw env (m + 1) (init_config hw w)).trace ++
        init_tail_events hw env (attempts hw env (m + 1) (init_config hw w)) ∧
      w'.timer_irq = env.probe_irq_off (w.probes + m) ∧
      (attempts hw env (m + 1) (init_config hw w)).timer_irq =
        env.probe_irq_off (w.probes + m) ∧
      w'.probes = w.probes + (m + 1) := by
  obtain ⟨r, hr⟩ := probe_loop_terminates hw env (fuel + 6) 0 (init_config hw w)
    (by omega) (by omega)
  obtain ⟨m, hm, hj, hl, hb⟩ := probe_loop_spec hw env _ _ _ _ hr
  obtain ⟨w', hw', ht, hi, hp⟩ := axitimer_init_of_loop hw env _ w r hr
  have hq : (init_config hw w).probes = w.probes := rfl
  rw [hq] at hj hl
  rw [hm] at hw' ht hi hp
  have hirq := attempts_irq hw env m (init_config hw w)
  rw [hq] at hirq
  refine ⟨m, w', hw', by omega, hj, ?_, ht, by rw [hi, hirq], hirq, ?_⟩
  · rcases hl with hl | hl
    · exact Or.inl hl
    · exact Or.inr (by omega)
  · rw [hp, attempts_probes, hq]

/-! ## Claims about the duty ramp -/

/-- C1: starting from `pwm = 0`, `step = +4`, the duty after `n` invocations of `axitimer_isr`
is `4*n` for `n ≤ 5000` and `40000 - 4*n` for `5000 ≤ n ≤ 10000`; after exactly 10000
invocations `(pwm, step)` is `(0, +4)` again, so the duty state repeats with period 10000;
the first five duties are 4, 8, 12, 16, 20. -/
theorem C1_triangle_wave (hw : Hw σ) (w : World σ) (hp : w.pwm = 0) (hs : w.step = 4) :
    (∀ n, n ≤ 5000 → (isr_iter hw n w).pwm = 4 * n) ∧
    (∀ n, 5000 ≤ n → n ≤ 10000 → (isr_iter hw n w).pwm = 40000 - 4 * n) ∧
    ((isr_iter hw 10000 w).pwm = 0 ∧ (isr_iter hw 10000 w).step = 4) ∧
    (∀ n, (isr_iter hw (n + 10000) w).pwm = (isr_iter hw n w).pwm ∧
      (isr_iter hw (n + 10000) w).step = (isr_iter hw n w).step) ∧
    List.map (fun n => (isr_iter hw n w).pwm) [1, 2, 3, 4, 5] = [4, 8, 12, 16, 20] := by
  have up : ∀ n, n ≤ 5000 → (isr_iter hw n w).pwm = 4 * n := by
    intro n hn
    rcases Nat.lt_or_ge n 5000 with h | h
    · exact (isr_iter_up hw w hp hs n h).1
    · have : n = 5000 := by omega
      subst this
      exact (isr_iter_top hw w hp hs).1
  refine ⟨up, ?_, isr_iter_bottom hw w hp hs, isr_iter_period hw w hp hs, ?_⟩
  · intro n h1 h2
    rcases Nat.lt_or_ge n 10000 with h | h
    · obtain ⟨k, rfl⟩ : ∃ k, n = 5000 + k := ⟨n - 5000, by omega⟩
      rw [(isr_iter_down hw w hp hs k (by omega)).1]
      omega
    · have : n = 10000 := by omega
      subst this
      exact (isr_iter_bottom hw w hp hs).1
  · simp only [List.map]
    rw [up 1 (by decide), up 2 (by decide), up 3 (by decide), up 4 (by decide), up 5 (by decide)]

/-- Witness of C1 on the freshly loaded module over plain-storage registers. -/
theorem C1_triangle_wave_witness :
    (World.initial (fun _ : Nat => 0)).pwm = 0 ∧ (World.initial (fun _ : Nat => 0)).step = 4 ∧
    (isr_iter plainHw 5000 (World.initial (fun _ => 0))).pwm = 4 * 5000 ∧
    (isr_iter plainHw 7500 (World.initial (fun _ => 0))).pwm = 40000 - 4 * 7500 :=
  ⟨rfl, rfl,
   (C1_triangle_wave plainHw (World.initial (fun _ => 0)) rfl rfl).1 5000 (by decide),
   (C1_triangle_wave plainHw (World.initial (fun _ => 0)) rfl rfl).2.1 7500 (by decide)
     (by decide)⟩

/-- C6 (as stated, refuted): after 2501 invocations from the initial duty state the duty is
10004, which the handler writes to channel 1's load register, and 10004 exceeds
`TMR1_RELOAD = 10000`. -/
theorem C6_counterexample :
    (isr_iter plainHw 2501 (World.initial (fun _ => 0))).pwm = 10004 ∧
    Event.iowrite32 10004 AXI_TIMER_TLR1_OFFSET ∈
      (isr_iter plainHw 2501 (World.initial (fun _ => 0))).trace ∧
    ¬ (isr_iter plainHw 2501 (World.initial (fun _ => 0))).pwm ≤ TMR1_RELOAD := by
  have h := (isr_iter_up plainHw (World.initial (fun _ => 0)) rfl rfl 2501 (by decide)).1
  have h0 := isr_iter_up plainHw (World.initial (fun _ => 0)) rfl rfl 2500 (by decide)
  refine ⟨h, ?_, by rw [h]; decide⟩
  have e : isr_iter plainHw 2501 (World.initial (fun _ => 0)) =
      (axitimer_isr plainHw (isr_iter plainHw 2500 (World.initial (fun _ => 0)))).2 :=
    isr_iter_succ plainHw 2500 _
  rw [e, isr_trace, h0.1, h0.2, duty_update_up _ (by decide)]
  simp

/-- C6 (amended): for every number `n` of handler invocations from the initial duty state, the
duty lies in `[0, TMR0_RELOAD]` (the reload value of channel 0, 20000), the upper end is
reached after 5000 invocations, and the duty after invocation `n + 1` is the value that
invocation writes to channel 1's load register. -/
theorem C6_duty_within_TMR0_RELOAD (hw : Hw σ) (w : World σ) (hp : w.pwm = 0)
    (hs : w.step = 4) (n : Nat) :
    (isr_iter hw n w).pwm ≤ TMR0_RELOAD ∧
    (isr_iter hw 5000 w).pwm = TMR0_RELOAD ∧
    ∃ v, (isr_iter hw (n + 1) w).trace = (isr_iter hw n w).trace ++
      [Event.iowrite32 (isr_iter hw (n + 1) w).pwm AXI_TIMER_TLR1_OFFSET,
       Event.ioread32 AXI_TIMER_TCSR0_OFFSET v,
       Event.iowrite32 (v ||| AXI_TIMER_CSR_TINT) AXI_TIMER_TCSR0_OFFSET] := by
  refine ⟨?_, (isr_iter_top hw w hp hs).1, ?_⟩
  · rcases isr_iter_inv hw w (dutyInv_initial w hp hs) n with ⟨_, _, h⟩ | ⟨_, _, _, h⟩
    · exact Nat.le_of_lt h
    · exact h
  · exact ⟨_, isr_trace hw (isr_iter hw n w)⟩

/-- Witness of C6 (amended) on the freshly loaded module over plain-storage registers. -/
theorem C6_duty_within_TMR0_RELOAD_witness :
    (isr_iter plainHw 3 (World.initial (fun _ => 0))).pwm ≤ TMR0_RELOAD :=
  have h := C6_duty_within_TMR0_RELOAD plainHw (World.initial (fun _ => 0)) rfl rfl 3
  h.1

/-- C10: in every state reached from `pwm = 0`, `step = +4` by invocations of `axitimer_isr`,
`step` is `+4` or `-4`, `pwm` is a multiple of 4 with `pwm ≤ 20000`, and `step = -4` implies
`pwm ≥ 4`; hence `pwm + step` lies in `[0, 2^32)` (the unsigned addition does not wrap),
`-step` lies in `[-128, 127]` (the `int8_t` negation does not overflow), and the native update
equals the update in exact integer arithmetic. -/
theorem C10_native_update_exact (hw : Hw σ) (w : World σ) (hp : w.pwm = 0) (hs : w.step = 4)
    (n : Nat) :
    ((isr_iter hw n w).step = 4 ∨ (isr_iter hw n w).step = -4) ∧
    (isr_iter hw n w).pwm % 4 = 0 ∧
    (isr_iter hw n w).pwm ≤ 20000 ∧
    ((isr_iter hw n w).step = -4 → 4 ≤ (isr_iter hw n w).pwm) ∧
    (0 ≤ ((isr_iter hw n w).pwm : Int) + (isr_iter hw n w).step ∧
      ((isr_iter hw n w).pwm : Int) + (isr_iter hw n w).step < 2 ^ 32) ∧
    ((pwm_add (isr_iter hw n w).pwm (isr_iter hw n w).step : Nat) : Int) =
      ((isr_iter hw n w).pwm : Int) + (isr_iter hw n w).step ∧
    (-128 ≤ -(isr_iter hw n w).step ∧ -(isr_iter hw n w).step ≤ 127) ∧
    toI8 (-(isr_iter hw n w).step) = -(isr_iter hw n w).step ∧
    ((((axitimer_isr hw (isr_iter hw n w)).2.pwm : Nat) : Int),
      (axitimer_isr hw (isr_iter hw n w)).2.step) =
      duty_update_exact ((isr_iter hw n w).pwm : Int) (isr_iter hw n w).step := by
  have inv := isr_iter_inv hw w (dutyInv_initial w hp hs) n
  obtain ⟨h1, h2, h3, h4⟩ := duty_update_exact_of_inv _ _ inv
  rw [isr_pwm, isr_step]
  refine ⟨?_, ?_, ?_, ?_, h1, h2, ?_, h3, h4⟩
  · rcases inv with ⟨h, _⟩ | ⟨h, _⟩
    · exact Or.inl h
    · exact Or.inr h
  · rcases inv with ⟨_, h, _⟩ | ⟨_, h, _⟩ <;> exact h
  · rcases inv with ⟨_, _, h⟩ | ⟨_, _, _, h⟩
    · exact Nat.le_of_lt h
    · exact h
  · intro hneg
    rcases inv with ⟨h, _⟩ | ⟨_, _, h, _⟩
    · rw [h] at hneg; exact absurd hneg (by decide)
    · exact h
  · rcases inv with ⟨h, _⟩ | ⟨h, _⟩ <;> rw [h] <;> decide

/-- Witness of C10 on the freshly loaded module over plain-storage registers. -/
theorem C10_native_update_exact_witness :
    (isr_iter plainHw 5000 (World.initial (fun _ => 0))).pwm % 4 = 0 ∧
    (isr_iter plainHw 5000 (World.initial (fun _ => 0))).pwm ≤ 20000 :=
  ⟨(C10_native_update_exact plainHw (World.initial (fun _ => 0)) rfl rfl 5000).2.1,
   (C10_native_update_exact plainHw (World.initial (fun _ => 0)) rfl rfl 5000).2.2.1⟩

/-! ## The handler's register accesses -/

/-- C2: from every prior state, one invocation of `axitimer_isr` makes exactly three register
accesses, in this order: a write of the newly advanced duty to offset 0x14, a read of offset
0x00 yielding `v`, a write of `v ||| 0x100` to offset 0x00; all values fit 32 bits, the device
receives the accesses in that order, and the handler returns `IRQ_HANDLED`. -/
theorem C2_isr_register_accesses (hw : Hw σ) (w : World σ) :
    (axitimer_isr hw w).2.trace = w.trace ++
      [Event.iowrite32 (axitimer_isr hw w).2.pwm 0x14,
       Event.ioread32 0x00
        ((hw.read (hw.write w.dev 0x14 (axitimer_isr hw w).2.pwm) 0x00).1 % 2 ^ 32),
       Event.iowrite32
        ((hw.read (hw.write w.dev 0x14 (axitimer_isr hw w).2.pwm) 0x00).1 % 2 ^ 32 ||| 0x100)
        0x00] ∧
    (axitimer_isr hw w).2.pwm = (duty_update w.pwm w.step).1 ∧
    (axitimer_isr hw w).2.pwm < 2 ^ 32 ∧
    (hw.read (hw.write w.dev 0x14 (axitimer_isr hw w).2.pwm) 0x00).1 % 2 ^ 32 ||| 0x100
      < 2 ^ 32 ∧
    (axitimer_isr hw w).2.dev =
      hw.write (hw.read (hw.write w.dev 0x14 (axitimer_isr hw w).2.pwm) 0x00).2 0x00
        ((hw.read (hw.write w.dev 0x14 (axitimer_isr hw w).2.pwm) 0x00).1 % 2 ^ 32 ||| 0x100) ∧
    (axitimer_isr hw w).1 = irqreturn_t.IRQ_HANDLED := by
  refine ⟨isr_trace hw w, rfl, ?_, ?_, rfl, rfl⟩
  · rw [isr_pwm]
    exact pwm_add_lt _ _ |> fun h => by
      simp only [duty_update]; split <;> exact h
  · exact lor_lt_u32 _ _ (Nat.mod_lt _ (by decide)) (by decide)

/-! ## Claims about the probe loop -/

/-- C3 (as stated, refuted): when every attempt reports zero the loop makes 1 attempt, and
when every attempt reports -1 it makes 6 attempts; neither is 5, and the two differ. -/
theorem C3_counterexample :
    (probe_loop plainHw (envOf (fun _ => 0) (fun _ => 0) true) 6 0
        (World.initial (fun _ => 0))).map (fun r => r.2.trace.filterMap Event.probeStep)
      = some (protocol 1) ∧
    (probe_loop plainHw (envOf (fun _ => -1) (fun _ => 0) true) 6 0
        (World.initial (fun _ => 0))).map (fun r => r.2.trace.filterMap Event.probeStep)
      = some (protocol 6) ∧
    protocol 1 ≠ protocol 5 ∧ protocol 6 ≠ protocol 5 := by
  decide

/-- C3 (amended): the probe loop of `axitimer_init` (entered with `count = 0`) returns, and
the steps it performs are those of `k` complete attempts (arm, enable channel 0, delay,
disable channel 0, disarm-and-report) with `1 ≤ k ≤ 6`: it retries only after a negative
result and at most 5 times. If the first six attempts all report a negative result then
`k = 6`; if attempt `i + 1 ≤ 6` is the first that reports a non-negative result (zero
included) then `k = i + 1`, so a zero result ends the loop at once. -/
theorem C3_probe_loop_attempts (hw : Hw σ) (env : Env) (fuel : Nat) (w : World σ) :
    ∃ c w' t k, probe_loop hw env (fuel + 6) 0 w = some (c, w') ∧
      w'.trace = w.trace ++ t ∧ t.filterMap Event.probeStep = protocol k ∧
      w'.probes = w.probes + k ∧ 1 ≤ k ∧ k ≤ 6 ∧
      ((∀ j, j < 6 → env.probe_irq_off (w.probes + j) < 0) → k = 6) ∧
      (∀ i, i < 6 → 0 ≤ env.probe_irq_off (w.probes + i) →
        (∀ j, j < i → env.probe_irq_off (w.probes + j) < 0) → k = i + 1) := by
  obtain ⟨r, hr⟩ := probe_loop_terminates hw env (fuel + 6) 0 w (by omega) (by omega)
  obtain ⟨m, hm, hj, hl, hb⟩ := probe_loop_spec hw env _ _ _ _ hr
  obtain ⟨t, ht, hp, _⟩ := attempts_trace hw env (m + 1) w
  have hm5 : m ≤ 5 := by have := hb (by omega); omega
  refine ⟨r.1, r.2, t, m + 1, hr, by rw [hm, ht], hp, by rw [hm, attempts_probes],
    by omega, by omega, ?_, ?_⟩
  · intro hall
    rcases hl with hl | hl
    · have := hall m (by omega); omega
    · omega
  · intro i hi hnn hbefore
    rcases Nat.lt_trichotomy m i with h | h | h
    · have := hbefore m h
      rcases hl with hl | hl <;> omega
    · omega
    · have := hj i h; omega

/-- Witness of C3 (amended): three ambiguous results followed by zero give 4 attempts. -/
theorem C3_probe_loop_attempts_witness :
    ∃ c w' t k, probe_loop plainHw (envOf (fun j => if j < 3 then -1 else 0) (fun _ => 0) true)
        (0 + 6) 0 (World.initial (fun _ => 0)) = some (c, w') ∧
      w'.trace = (World.initial (fun _ : Nat => 0)).trace ++ t ∧
      t.filterMap Event.probeStep = protocol k ∧ k = 4 := by
  obtain ⟨c, w', t, k, h1, h2, h3, _, _, _, _, h4⟩ :=
    C3_probe_loop_attempts plainHw (envOf (fun j => if j < 3 then -1 else 0) (fun _ => 0) true)
      0 (World.initial (fun _ => 0))
  exact ⟨c, w', t, k, h1, h2, h3, h4 3 (by decide) (by decide) (by decide)⟩

/-- C4 (the code at the failing input): when all six probe attempts report -1, `timer_irq`
is -1 after the loop and `axitimer_init` calls `request_irq` for line -1; when the kernel
accepts it, init goes on to write the enable-all bit and returns 0, and when the kernel
rejects it, init returns `-EIO` after the call. -/
theorem C4_request_irq_after_negative_probe :
    (axitimer_init plainHw (envOf (fun _ => -1) (fun _ => 0) true) 6
        (World.initial (fun _ => 0))).map
      (fun r => (r.1, r.2.timer_irq, r.2.probes,
        decide (Event.request_irq (-1) "axitimer" 0 ∈ r.2.trace),
        r.2.trace.countP Event.isEnallWrite)) = some (0, -1, 6, true, 1) ∧
    (axitimer_init plainHw (envOf (fun _ => -1) (fun _ => -22) true) 6
        (World.initial (fun _ => 0))).map
      (fun r => (r.1, r.2.timer_irq, r.2.probes,
        decide (Event.request_irq (-1) "axitimer" (-22) ∈ r.2.trace),
        r.2.trace.countP Event.isEnallWrite)) = some (- EIO, -1, 6, true, 0) := by
  decide

/-- C5 (the code): `axitimer_exit` calls `iounmap` first, then `free_irq` for `timer_irq`,
then `platform_device_unregister`; so the window is unmapped while the handler is still
registered. -/
theorem C5_exit_unmaps_before_free_irq (w : World σ) :
    (axitimer_exit w).trace = w.trace ++
      [Event.iounmap, Event.free_irq w.timer_irq, Event.platform_device_unregister,
       Event.printk "\x016AXI Timer module removed.\n" []] := by
  simp [axitimer_exit, emit]

theorem init_tail_no_iounmap (hw : Hw σ) (env : Env) (w : World σ) :
    Event.iounmap ∉ init_tail_events hw env w := by
  unfold init_tail_events
  split_ifs <;> simp

theorem init_tail_ret_eio (env : Env) (w : World σ) :
    (w.timer_irq = 0 → init_tail_ret env w = - EIO) ∧
    (w.timer_irq ≠ 0 → env.request_irq w.timer_irq ≠ 0 → init_tail_ret env w = - EIO) := by
  unfold init_tail_ret
  constructor
  · intro h; rw [if_pos h]
  · intro h1 h2; rw [if_neg h1, if_pos h2]

/-- C7 (as stated, refuted): the first two register writes of `axitimer_init` carry 0x246 and
0x206, in which bit 0 (mode-select) is clear and bit 1 (up/down-count) is set; they are not
the values with bits 9, 2, 0, 6 and bits 9, 2, 0 that the claim names. -/
theorem C7_counterexample :
    (axitimer_init plainHw (envOf (fun _ => 3) (fun _ => 0) true) 6
        (World.initial (fun _ => 0))).map
      (fun r => (r.2.trace.filterMap Event.regWrite).take 2)
      = some [(0x00, 0x246), (0x10, 0x206)] ∧
    (0x246 : Nat) ≠ 1 <<< 9 ||| 1 <<< 2 ||| 1 <<< 0 ||| 1 <<< 6 ∧
    (0x206 : Nat) ≠ 1 <<< 9 ||| 1 <<< 2 ||| 1 <<< 0 ∧
    Nat.testBit 0x246 0 = false ∧ Nat.testBit 0x206 0 = false := by
  decide

/-- C7 (amended): `axitimer_init` returns, and its first four register writes are, in order:
offset 0x00 := pulse-width-mode | generate-mode | up/down-count | enable-interrupt (bits 9, 2,
1, 6); offset 0x10 := pulse-width-mode | generate-mode | up/down-count (bits 9, 2, 1), with
enable-interrupt clear; offset 0x04 := 20000 (`TMR0_RELOAD`); offset 0x14 := 10000
(`TMR1_RELOAD`). -/
theorem C7_init_config_writes (hw : Hw σ) (env : Env) (fuel : Nat) (dev : σ) :
    ∃ ret w', axitimer_init hw env (fuel + 6) (World.initial dev) = some (ret, w') ∧
      (w'.trace.filterMap Event.regWrite).take 4 =
        [(0x00, 1 <<< 9 ||| 1 <<< 2 ||| 1 <<< 1 ||| 1 <<< 6),
         (0x10, 1 <<< 9 ||| 1 <<< 2 ||| 1 <<< 1),
         (0x04, TMR0_RELOAD), (0x14, TMR1_RELOAD)] ∧
      Nat.testBit (1 <<< 9 ||| 1 <<< 2 ||| 1 <<< 1) 6 = false ∧
      TMR0_RELOAD = 20000 ∧ TMR1_RELOAD = 10000 := by
  obtain ⟨m, w', hi, _, _, _, ht, _⟩ := init_run hw env fuel (World.initial dev)
  obtain ⟨t, hat, _, _⟩ := attempts_trace hw env (m + 1) (init_config hw (World.initial dev))
  refine ⟨_, w', hi, ?_, by decide, rfl, rfl⟩
  rw [ht, hat, init_config_trace]
  simp [World.initial, Event.regWrite, TMR0_RELOAD, TMR1_RELOAD]

/-- C9 (as stated, refuted): when the probe reports zero lines, and when `request_irq`
rejects the line found, `axitimer_init` returns `-EIO` and its trace contains no `iounmap`. -/
theorem C9_counterexample :
    (axitimer_init plainHw (envOf (fun _ => 0) (fun _ => 0) true) 6
        (World.initial (fun _ => 0))).map
      (fun r => (r.1, decide (Event.iounmap ∈ r.2.trace))) = some (- EIO, false) ∧
    (axitimer_init plainHw (envOf (fun _ => 7) (fun _ => -16) true) 6
        (World.initial (fun _ => 0))).map
      (fun r => (r.1, decide (Event.iounmap ∈ r.2.trace))) = some (- EIO, false) := by
  decide

/-- C9 (amended): `axitimer_init` returns; it maps the register window and never calls
`iounmap`: when it fails with the probe-failure error (`timer_irq = 0` after the loop) or
because `request_irq` rejected the registration, it returns `-EIO` with the window still
mapped. -/
theorem C9_init_never_unmaps (hw : Hw σ) (env : Env) (fuel : Nat) (dev : σ) :
    ∃ ret w', axitimer_init hw env (fuel + 6) (World.initial dev) = some (ret, w') ∧
      Event.ioremap_nocache 0x40000000 0x10000 ∈ w'.trace ∧
      Event.iounmap ∉ w'.trace ∧
      (w'.timer_irq = 0 → ret = - EIO) ∧
      (w'.timer_irq ≠ 0 → env.request_irq w'.timer_irq ≠ 0 → ret = - EIO) := by
  obtain ⟨m, w', hi, _, _, _, ht, hq, hq', _⟩ := init_run hw env fuel (World.initial dev)
  obtain ⟨t, hat, _, hev⟩ := attempts_trace hw env (m + 1) (init_config hw (World.initial dev))
  have hr := init_tail_ret_eio env (attempts hw env (m + 1) (init_config hw (World.initial dev)))
  rw [hq', ← hq] at hr
  refine ⟨_, w', hi, ?_, ?_, hr.1, hr.2⟩
  · rw [ht, hat, init_config_trace]
    simp
  · rw [ht, hat, init_config_trace]
    intro hmem
    rcases List.mem_append.1 hmem with h | h
    · rcases List.mem_append.1 h with h | h
      · simp [World.initial] at h
      · have := hev _ h
        simp [Event.isProbeEvent] at this
    · exact init_tail_no_iounmap hw env _ h

theorem init_config_no_enall (hw : Hw σ) (dev : σ) :
    ∀ e ∈ (init_config hw (World.initial dev)).trace, e.isEnallWrite = false := by
  rw [init_config_trace]
  simp [World.initial, Event.isEnallWrite]
  decide

theorem init_tail_fail_no_enall (hw : Hw σ) (env : Env) (w : World σ)
    (h : init_tail_ret env w ≠ 0) :
    ∀ e ∈ init_tail_events hw env w, e.isEnallWrite = false := by
  unfold init_tail_ret at h
  unfold init_tail_events
  split_ifs at h ⊢ <;> simp_all [Event.isEnallWrite]

theorem init_tail_success (env : Env) (w : World (Nat → Nat))
    (hd : w.dev AXI_TIMER_TCSR0_OFFSET = 582) (h : init_tail_ret env w = 0) :
    init_tail_events plainHw env w =
      [Event.request_irq w.timer_irq "axitimer" 0,
       Event.platform_device_register_simple "axitimer" true,
       Event.ioread32 AXI_TIMER_TCSR0_OFFSET 582,
       Event.iowrite32 (582 ||| AXI_TIMER_CSR_ENALL) AXI_TIMER_TCSR0_OFFSET,
       Event.printk "\x016AXI Timer configured.\n" []] := by
  unfold init_tail_ret at h
  unfold init_tail_events
  split_ifs at h ⊢
  · exact absurd h (by decide)
  · exact absurd h (by decide)
  · exact absurd h (by decide)
  · rename_i h1 h2 h3
    have h2' : env.request_irq w.timer_irq = 0 := not_not.1 h2
    simp [plainHw, hd, h2']

theorem countP_eq_zero_of_forall (l : List Event) (h : ∀ e ∈ l, e.isEnallWrite = false) :
    l.countP Event.isEnallWrite = 0 := by
  rw [List.countP_eq_zero]
  intro e he
  rw [h e he]
  decide

/-! ## Claims about starting the timers -/

/-- C8: with the registers as plain storage, `axitimer_init` returns; when it returns 0, its
trace ends with a read of channel 0's control/status register yielding `v`, the write of
`v ||| enable-all` to that register, and the final log line; `request_irq` has returned 0
before them, no earlier event is a control/status write with bit 10 set, so exactly one such
write occurs and it is the last register access. When init returns an error, no such write
occurs. -/
theorem C8_single_enall_write (env : Env) (fuel : Nat) (dev : Nat → Nat) :
    ∃ ret w', axitimer_init plainHw env (fuel + 6) (World.initial dev) = some (ret, w') ∧
      (ret = 0 → ∃ pre irq v,
        w'.trace = pre ++
          [Event.ioread32 AXI_TIMER_TCSR0_OFFSET v,
           Event.iowrite32 (v ||| AXI_TIMER_CSR_ENALL) AXI_TIMER_TCSR0_OFFSET,
           Event.printk "\x016AXI Timer configured.\n" []] ∧
        Event.request_irq irq "axitimer" 0 ∈ pre ∧
        (∀ e ∈ pre, e.isEnallWrite = false) ∧
        (Event.iowrite32 (v ||| AXI_TIMER_CSR_ENALL) AXI_TIMER_TCSR0_OFFSET).isEnallWrite = true ∧
        w'.trace.countP Event.isEnallWrite = 1 ∧
        (w'.trace.filter Event.isRegAccess).getLast? =
          some (Event.iowrite32 (v ||| AXI_TIMER_CSR_ENALL) AXI_TIMER_TCSR0_OFFSET)) ∧
      (ret ≠ 0 → w'.trace.countP Event.isEnallWrite = 0) := by
  obtain ⟨m, w', hi, _, _, _, ht, _, _, _⟩ := init_run plainHw env fuel (World.initial dev)
  obtain ⟨hd, t, hat, hen⟩ :=
    attempts_plain env (m + 1) _ (init_config_plain (World.initial dev))
  have hcfg := init_config_no_enall plainHw dev
  generalize attempts plainHw env (m + 1) (init_config plainHw (World.initial dev)) = wl at *
  have hwl : ∀ e ∈ wl.trace, e.isEnallWrite = false := by
    rw [hat]
    intro e he
    rcases List.mem_append.1 he with h | h
    · exact hcfg e h
    · exact hen e h
  refine ⟨_, w', hi, ?_, ?_⟩
  · intro hret
    have hs := init_tail_success env wl hd hret
    have hpre : ∀ e ∈ wl.trace ++
        [Event.request_irq wl.timer_irq "axitimer" 0,
         Event.platform_device_register_simple "axitimer" true], e.isEnallWrite = false := by
      intro e he
      rcases List.mem_append.1 he with h | h
      · exact hwl e h
      · simp at h
        rcases h with h | h <;> subst h <;> rfl
    have hlast : (Event.iowrite32 (582 ||| AXI_TIMER_CSR_ENALL)
        AXI_TIMER_TCSR0_OFFSET).isEnallWrite = true := by decide
    refine ⟨wl.trace ++ [Event.request_irq wl.timer_irq "axitimer" 0,
        Event.platform_device_register_simple "axitimer" true], wl.timer_irq, 582,
      ?_, by simp, hpre, hlast, ?_, ?_⟩
    · rw [ht, hs]; simp
    · rw [ht, hs, List.countP_append, countP_eq_zero_of_forall _ hwl]
      simp [List.countP_cons, Event.isEnallWrite]
      decide
    · rw [ht, hs, List.filter_append]
      have : List.filter Event.isRegAccess
          [Event.request_irq wl.timer_irq "axitimer" 0,
           Event.platform_device_register_simple "axitimer" true,
           Event.ioread32 AXI_TIMER_TCSR0_OFFSET 582,
           Event.iowrite32 (582 ||| AXI_TIMER_CSR_ENALL) AXI_TIMER_TCSR0_OFFSET,
           Event.printk "\x016AXI Timer configured.\n" []] =
          [Event.ioread32 AXI_TIMER_TCSR0_OFFSET 582,
           Event.iowrite32 (582 ||| AXI_TIMER_CSR_ENALL) AXI_TIMER_TCSR0_OFFSET] := by
        simp [List.filter, Event.isRegAccess]
      rw [this]
      simp
  · intro hret
    rw [ht, List.countP_append, countP_eq_zero_of_forall _ hwl,
      countP_eq_zero_of_forall _ (init_tail_fail_no_enall plainHw env wl hret)]

end AxiTimerPwm
